import Mathlib

/-!
Shallow embedding of the todo-extraction pipeline of the slackbot-for-todo
repository:

* `src/services/todo_extractor.py` — `TodoExtractor.extract_todos` and
  `TodoExtractor._parse_tool_calls`
* `src/prompts/todo_extraction.py` — `get_todo_extraction_prompt`
* `src/llm/client.py` — `create_llm_client`, `OpenAIClient.__init__`,
  `GroqClient.__init__`

Python values flowing through the decoder are modelled by an inductive
`Json` type; Python dictionaries are association lists.  Python exceptions
are modelled explicitly with `Except PyErr`: an operation that would raise
(attribute access on a non-dict, iterating a non-iterable, slicing a
non-sliceable value, `json.loads` on a non-string) returns `.error`, and
the `try/except` boundaries of the source are the points where an `.error`
is mapped back to a plain value.  The standard-library parser `json.loads`
is not repository code; it is passed in as a parameter
`loads : String → Option Json`, where `none` stands for a
`json.JSONDecodeError` and `some v` for a successful parse producing `v`.
-/

/-- Model of a Python value as produced by `json.loads` and passed through
the decoder.  Dictionaries are association lists of string keys. -/
inductive Json : Type where
  | null : Json
  | bool (b : Bool) : Json
  | num (n : Int) : Json
  | str (s : String) : Json
  | arr (xs : List Json) : Json
  | obj (kvs : List (String × Json)) : Json

/-- Python exceptions that the modelled code can raise. -/
inductive PyErr : Type where
  | attrError : PyErr
  | typeError : PyErr
  | valueError : PyErr
  | importError : PyErr
  | exc (msg : String) : PyErr

/-- The validated output unit built at `todo_extractor.py:140`:
`validated_todo = ("description": todo.get("description", ""),
"assigned_to": todo.get("assigned_to"))`.  Both fields hold the Json value
taken from the entry; `assigned_to` is `Json.null` when the key is absent
or null, exactly as the Python `dict.get` collapses the two cases to
`None`. -/
structure TodoRecord : Type where
  description : Json
  assigned_to : Json

/-- Python truthiness of a value, as used by `if not response.get(...)`
and `if last_bot_message:`. -/
def Json.truthy : Json → Bool
  | .null => false
  | .bool b => b
  | .num n => n != 0
  | .str s => !s.isEmpty
  | .arr xs => !xs.isEmpty
  | .obj kvs => !kvs.isEmpty

/-- Python `d.get(key, default)`: succeeds only on a dictionary, raising
`AttributeError` on every other value (no other modelled value has a
`.get` method). -/
def Json.dictGet (j : Json) (k : String) (d : Json) : Except PyErr Json :=
  match j with
  | .obj kvs => .ok ((kvs.lookup k).getD d)
  | _ => .error .attrError

/-- Whether the Python slice `v[:50]` taken at `todo_extractor.py:145`
succeeds: strings and lists support slicing, every other value raises
`TypeError`. -/
def Json.sliceable : Json → Bool
  | .str _ => true
  | .arr _ => true
  | _ => false

/-- The comparison `function_name == "extract_todos"` at
`todo_extractor.py:130`; Python equality of a non-string against a string
literal is `False`, never an error. -/
def isExtractTodosName : Json → Bool
  | .str s => s = "extract_todos"
  | _ => false

/-- The record built for one entry of the `todos` array by the body of the
loop at `todo_extractor.py:138`: a record is created exactly when the
entry is a dict containing the key `description`
(`isinstance(todo, dict) and "description" in todo`). -/
def emitEntry : Json → Option TodoRecord
  | .obj kvs =>
      match kvs.lookup "description" with
      | some d => some ⟨d, (kvs.lookup "assigned_to").getD Json.null⟩
      | none => none
  | _ => none

/-- The validation loop at `todo_extractor.py:138`: entries that are not
dicts or lack the key `description` are skipped; an emitted record is
appended and then its description is sliced for the debug log
(`validated_todo["description"][:50]`), which raises `TypeError` on a
non-sliceable description and aborts the whole batch. -/
def validateList : List Json → Except PyErr (List TodoRecord)
  | [] => .ok []
  | todo :: rest =>
      match emitEntry todo with
      | none => validateList rest
      | some r =>
          if r.description.sliceable then
            match validateList rest with
            | .ok rs => .ok (r :: rs)
            | .error e => .error e
          else .error .typeError

/-- Iteration over `todos_list` (`todo_extractor.py:135` takes its `len`
for a debug line, then line 138 iterates): a list iterates its elements, a
string its characters and a dict its keys — characters and keys are never
dicts, so the latter two emit nothing; `None`, booleans and numbers raise
`TypeError` at the `len` call. -/
def iterTodosList : Json → Except PyErr (List TodoRecord)
  | .arr xs => validateList xs
  | .str _ => .ok []
  | .obj _ => .ok []
  | _ => .error .typeError

/-- Lines 131–149 of `todo_extractor.py`: `json.loads` on the arguments
value followed by `arguments.get("todos", [])` and the validation loop.
`loads` models `json.loads`; a `none` result is the `json.JSONDecodeError`
caught at line 146 (the call is skipped with `continue`), while calling
`json.loads` on a non-string value raises an uncaught `TypeError`. -/
def parseArguments (loads : String → Option Json) (arguments_str : Json) :
    Except PyErr (List TodoRecord) :=
  match arguments_str with
  | Json.str s =>
      match loads s with
      | none => .ok []
      | some arguments => do
          let todos_list ← arguments.dictGet "todos" (Json.arr [])
          iterTodosList todos_list
  | _ => .error .typeError

/-- Processing of one element of `response["tool_calls"]`, lines 123–149 of
`todo_extractor.py`. -/
def processToolCall (loads : String → Option Json) (tc : Json) :
    Except PyErr (List TodoRecord) := do
  let function ← tc.dictGet "function" (Json.obj [])
  let function_name ← function.dictGet "name" Json.null
  let arguments_str ← function.dictGet "arguments" (Json.str "\x7b\x7d")
  if isExtractTodosName function_name then
    parseArguments loads arguments_str
  else
    .ok []

/-- The `for tool_call in response["tool_calls"]` loop, accumulating into
`todos`; an uncaught error in any call propagates. -/
def processToolCalls (loads : String → Option Json) :
    List Json → Except PyErr (List TodoRecord)
  | [] => .ok []
  | tc :: rest => do
      let r ← processToolCall loads tc
      let rs ← processToolCalls loads rest
      .ok (r ++ rs)

/-- Body of `_parse_tool_calls` without the outer `try/except`
(`todo_extractor.py:114`–151).  A falsy or missing `tool_calls` value
returns `[]` at line 118; a truthy non-list raises (`len` of a number, or
`.get` on the characters or keys produced by iterating a string or dict). -/
def parseToolCallsE (loads : String → Option Json) (response : Json) :
    Except PyErr (List TodoRecord) := do
  let tcs ←
    match response with
    | Json.obj kvs => Except.ok ((kvs.lookup "tool_calls").getD Json.null)
    | _ => Except.error PyErr.attrError
  if !tcs.truthy then
    .ok []
  else
    match tcs with
    | Json.arr xs => processToolCalls loads xs
    | Json.str _ => .error .attrError
    | Json.obj _ => .error .attrError
    | _ => .error .typeError

/-- Function `TodoExtractor._parse_tool_calls`: the body wrapped in the outer
`try/except Exception` of `todo_extractor.py:114`/152, which converts any
uncaught error into the empty list. -/
def parse_tool_calls (loads : String → Option Json) (response : Json) :
    List TodoRecord :=
  match parseToolCallsE loads response with
  | .ok todos => todos
  | .error _ => []

/-!
Prompt builder, `src/prompts/todo_extraction.py`.

A message is a Python dict; the prompt builder reads only the keys
`user_name`, `user`, `text`, `timestamp_readable` and `ts`, all of which
the connector supplies as strings, so a message is embedded as a record of
optional strings (`none` = key absent from the dict).
-/

/-- One message dict restricted to the keys the prompt builder reads. -/
structure Msg : Type where
  user_name : Option String := none
  user : Option String := none
  text : Option String := none
  timestamp_readable : Option String := none
  ts : Option String := none

/-- Python truthiness of the message dict (`if last_bot_message:` at
`todo_extraction.py:75`): a dict is truthy exactly when it is non-empty,
that is, when at least one of its keys is present. -/
def Msg.truthy (m : Msg) : Bool :=
  m.user_name.isSome || m.user.isSome || m.text.isSome ||
    m.timestamp_readable.isSome || m.ts.isSome

/-- Truthiness of a `dict.get` result for string values, as used by the
`or` at `todo_extraction.py:68`: `None` (absent) and the empty string are
falsy. -/
def truthyStr : Option String → Bool
  | some s => !s.isEmpty
  | none => false

/-- Line 68: `user = msg.get("user_name") or msg.get("user", "Unknown")`. -/
def msgAuthor (m : Msg) : String :=
  if truthyStr m.user_name then m.user_name.getD "" else m.user.getD "Unknown"

/-- Line 69: `text = msg.get("text", "")`. -/
def msgText (m : Msg) : String :=
  m.text.getD ""

/-- Line 71: `timestamp = msg.get("timestamp_readable", msg.get("ts", ""))`. -/
def msgTimestamp (m : Msg) : String :=
  m.timestamp_readable.getD (m.ts.getD "")

/-- Line 72: the rendered line `[timestamp] user: text` with its trailing
newline. -/
def renderLine (m : Msg) : String :=
  "[" ++ msgTimestamp m ++ "] " ++ msgAuthor m ++ ": " ++ msgText m ++ "\n"

/-- Lines 65–72: `messages_text` accumulated with `+=` over the messages
in input order. -/
def messagesText (messages : List Msg) : String :=
  messages.foldl (fun acc m => acc ++ renderLine m) ""

/-- Lines 80–81: the `bot_message_text` section built when
`last_bot_message` is truthy. -/
def botMessageText (m : Msg) : String :=
  "# Last Bot Message from the Channel:\n" ++
    "[" ++ msgTimestamp m ++ "] " ++ msgText m

/-- Line 83: the cross-reference instruction line added together with the
bot-message section. -/
def specialInstructionsLine : String :=
  "- Refer to the last bot message from the channel when extracting todos to avoid duplicates."

/-- Lines 88–104: the f-string template assembling the final prompt from
`messages_text`, `bot_message_text` and `special_instructions`. -/
def mkPrompt (messages_text bot_message_text special_instructions : String) :
    String :=
  "\n# Context:\n## Slack Channel Conversation:\n" ++ messages_text ++
    "\n\n" ++ bot_message_text ++
    "\n\n# Task\n- Analyze the Slack conversation and extract all todos and action items that are still pending and need to be done.\n- If an imperative sentence is said by person X, that is a todo for person Y.\n" ++
    special_instructions ++
    "\n    \nFor each todo, identify:\n- The task description\n- Who it\x27s assigned to (if mentioned)\n\nUse the extract_todos function to record all found todos. If no todos are found, call the function with an empty array."

/-- Function `get_todo_extraction_prompt(messages, last_bot_message)`: the bot
section and the instruction line are produced only when
`last_bot_message` is truthy (a supplied non-empty dict); otherwise both
interpolated parts are the empty string. -/
def get_todo_extraction_prompt (messages : List Msg)
    (last_bot_message : Option Msg) : String :=
  match last_bot_message with
  | some m =>
      if m.truthy then
        mkPrompt (messagesText messages) (botMessageText m)
          specialInstructionsLine
      else
        mkPrompt (messagesText messages) "" ""
  | none => mkPrompt (messagesText messages) "" ""

/-!
Extraction orchestrator, `TodoExtractor.extract_todos`
(`src/services/todo_extractor.py:23`–100).

The Gateway call `self.llm_client.generate_with_tools(...)` is modelled by
a parameter `gen : String → Except PyErr Json` from the built prompt to
either the raw response or a raised error (`LLMInvocationError` or any
other failure).  The instrumented version also counts how many times the
Gateway is invoked, so that "returns without invoking the Gateway" is a
provable statement rather than an unobservable side effect.
-/

/-- Function `extract_todos` together with the number of Gateway invocations it
performs: an empty message list returns at line 40 before the prompt is
built or the Gateway touched; otherwise the Gateway is called exactly
once, and the `try/except` of lines 66/98 converts any raised error into
the empty list. -/
def extract_todosT (loads : String → Option Json)
    (gen : String → Except PyErr Json) (messages : List Msg)
    (last_bot_message : Option Msg) : List TodoRecord × Nat :=
  if messages.isEmpty then ([], 0)
  else
    let prompt := get_todo_extraction_prompt messages last_bot_message
    match gen prompt with
    | .ok response => (parse_tool_calls loads response, 1)
    | .error _ => ([], 1)

/-- Function `TodoExtractor.extract_todos`: the returned todo list. -/
def extract_todos (loads : String → Option Json)
    (gen : String → Except PyErr Json) (messages : List Msg)
    (last_bot_message : Option Msg) : List TodoRecord :=
  (extract_todosT loads gen messages last_bot_message).1

/-!
Client factory, `src/llm/client.py`.

The two concrete clients only matter here through their constructors:
which exception is raised when the backing library is missing or no
credential is available, and which client value is produced otherwise.
Availability of the `openai`/`groq` libraries and the environment
variables read by `os.getenv` are passed as explicit parameters.
-/

/-- The client value produced by a successful constructor call. -/
inductive LLMClientV : Type where
  | openaiClient (api_key : String) (model : String) : LLMClientV
  | groqClient (api_key : String) (model : String) : LLMClientV

/-- Constructor `OpenAIClient.__init__` (`client.py:48`–65): `ImportError` when the
library is absent, then `self.api_key = api_key or os.getenv(...)` with
Python truthiness, then `ValueError` when the result is falsy. -/
def OpenAIClient.init (libAvailable : Bool) (envKey : Option String)
    (api_key : Option String) (model : String) : Except PyErr LLMClientV :=
  if !libAvailable then .error .importError
  else
    let key := if truthyStr api_key then api_key else envKey
    if truthyStr key then .ok (.openaiClient (key.getD "") model)
    else .error .valueError

/-- Constructor `GroqClient.__init__` (`client.py:151`–169), same shape as the OpenAI
constructor. -/
def GroqClient.init (libAvailable : Bool) (envKey : Option String)
    (api_key : Option String) (model : String) : Except PyErr LLMClientV :=
  if !libAvailable then .error .importError
  else
    let key := if truthyStr api_key then api_key else envKey
    if truthyStr key then .ok (.groqClient (key.getD "") model)
    else .error .valueError

/-- Python `str.lower()` at `client.py:271`: lower-casing character by
character (the same mapping as `String.toLower`, written over the
character list so that it evaluates definitionally). -/
def pyLower (s : String) : String :=
  ⟨s.data.map Char.toLower⟩

/-- Function `create_llm_client` (`client.py:253`–278): lower-case the provider
string, dispatch to the matching constructor with its default model, and
raise `ValueError` for any other identifier before any constructor runs. -/
def create_llm_client (openaiAvailable groqAvailable : Bool)
    (envOpenaiKey envGroqKey : Option String) (provider : String)
    (api_key : Option String) (model : Option String) :
    Except PyErr LLMClientV :=
  let provider_lower := pyLower provider
  if provider_lower = "openai" then
    OpenAIClient.init openaiAvailable envOpenaiKey api_key
      (model.getD "gpt-4o-mini")
  else if provider_lower = "groq" then
    GroqClient.init groqAvailable envGroqKey api_key
      (model.getD "llama-3.1-70b-versatile")
  else
    .error .valueError

/-!
Helper notions used by the theorems: substring containment, and lemmas
about the accumulating fold of the prompt builder and the decoder loop.
-/

/-- String `pat` occurs contiguously inside `s`. -/
def containsStr (s pat : String) : Prop :=
  ∃ a b : String, s = a ++ (pat ++ b)

theorem exceptOkBind {α β : Type} (a : α) (f : α → Except PyErr β) :
    Except.bind (Except.ok a) f = f a := rfl

theorem exceptErrorBind {α β : Type} (e : PyErr) (f : α → Except PyErr β) :
    Except.bind (Except.error e : Except PyErr α) f = Except.error e := rfl

theorem containsStr_self (pat : String) : containsStr pat pat :=
  ⟨"", "", by simp⟩

theorem containsStr_appendL (s t pat : String) (h : containsStr s pat) :
    containsStr (s ++ t) pat := by
  obtain ⟨a, b, rfl⟩ := h
  exact ⟨a, b ++ t, by rw [String.append_assoc, String.append_assoc]⟩

theorem containsStr_appendR (s t pat : String) (h : containsStr t pat) :
    containsStr (s ++ t) pat := by
  obtain ⟨a, b, rfl⟩ := h
  exact ⟨s ++ a, b, (String.append_assoc s a (pat ++ b)).symm⟩

theorem foldl_renderLine (ms : List Msg) (init : String) :
    ms.foldl (fun acc m => acc ++ renderLine m) init = init ++ messagesText ms := by
  induction ms generalizing init with
  | nil => simp [messagesText]
  | cons m ms ih =>
      conv_rhs => rw [messagesText, List.foldl_cons]
      rw [List.foldl_cons, ih, ih, String.empty_append, String.append_assoc]

theorem messagesText_cons (m : Msg) (ms : List Msg) :
    messagesText (m :: ms) = renderLine m ++ messagesText ms := by
  rw [messagesText, List.foldl_cons, foldl_renderLine, String.empty_append]

theorem messagesText_append (l1 l2 : List Msg) :
    messagesText (l1 ++ l2) = messagesText l1 ++ messagesText l2 := by
  rw [messagesText, List.foldl_append, foldl_renderLine]
  rfl

theorem containsStr_messagesText (messages : List Msg) (m : Msg)
    (h : m ∈ messages) : containsStr (messagesText messages) (renderLine m) := by
  obtain ⟨l1, l2, rfl⟩ := List.append_of_mem h
  rw [messagesText_append, messagesText_cons]
  exact containsStr_appendR _ _ _ (containsStr_appendL _ _ _ (containsStr_self _))

/-!
Claims C3, C4, C5.
-/

/-- C3: if the Gateway call `generate_with_tools` fails with any error
(`LLMInvocationError` or otherwise), `extract_todos` catches it and
returns the empty sequence; the error is never propagated to the
caller. -/
theorem C3_gateway_failure_isolated (loads : String → Option Json)
    (gen : String → Except PyErr Json) (messages : List Msg)
    (last_bot_message : Option Msg) (e : PyErr)
    (hgen : gen (get_todo_extraction_prompt messages last_bot_message) =
      .error e) :
    extract_todos loads gen messages last_bot_message = [] := by
  unfold extract_todos extract_todosT
  by_cases hm : messages.isEmpty
  · simp [hm]
  · simp [hm, hgen]

/-- Gateway stub that always raises, standing for a mocked
`LLMInvocationError`. -/
def exGenFail : String → Except PyErr Json :=
  fun _ => .error (.exc "LLMInvocationError")

/-- Message fixture for the Gateway-failure witness. -/
def exMsgC3 : Msg :=
  { text := some "ship X", user := some "Alice", ts := some "1" }

/-- Witness for C3 at a concrete non-empty message list and a Gateway that
always raises. -/
theorem C3_gateway_failure_isolated_witness :
    extract_todos (fun _ => none) exGenFail [exMsgC3] none = [] :=
  C3_gateway_failure_isolated (fun _ => none) exGenFail [exMsgC3] none
    (.exc "LLMInvocationError") rfl

/-- C4: `extract_todos` called with an empty message list returns the
empty sequence immediately and performs zero Gateway invocations (the
count in `extract_todosT` is the number of `generate_with_tools` calls),
for every Gateway and every optional last bot message — in particular the
result does not depend on the Gateway at all. -/
theorem C4_empty_messages_no_gateway_call (loads : String → Option Json)
    (gen : String → Except PyErr Json) (last_bot_message : Option Msg) :
    extract_todosT loads gen [] last_bot_message = ([], 0) ∧
      extract_todos loads gen [] last_bot_message = [] :=
  ⟨rfl, rfl⟩

/-- Response fixture whose single tool call carries the malformed
arguments text of the robustness test vector. -/
def exRespC5 : Json :=
  Json.obj [("content", Json.str ""),
    ("tool_calls", Json.arr
      [Json.obj [("id", Json.str "1"),
        ("function", Json.obj [("name", Json.str "extract_todos"),
          ("arguments", Json.str "\x7bnot json")])]])]

/-- C5: the decoder is total: for every response the public
`_parse_tool_calls` returns the decoded list when its body succeeds and
the empty list when the body raises, so no exception ever reaches the
caller; concretely, a tool call whose arguments text is not valid JSON
decodes to the empty list without raising. -/
theorem C5_decoder_total :
    (∀ (loads : String → Option Json) (response : Json),
      (∃ l, parseToolCallsE loads response = .ok l ∧
        parse_tool_calls loads response = l) ∨
      (∃ e, parseToolCallsE loads response = .error e ∧
        parse_tool_calls loads response = [])) ∧
    parse_tool_calls (fun _ => none) exRespC5 = [] := by
  refine ⟨fun loads response => ?_, rfl⟩
  cases h : parseToolCallsE loads response with
  | ok l => exact Or.inl ⟨l, rfl, by simp [parse_tool_calls, h]⟩
  | error e => exact Or.inr ⟨e, rfl, by simp [parse_tool_calls, h]⟩

/-!
Claim C1.  The loop at `todo_extractor.py:139` checks only
`isinstance(todo, dict) and "description" in todo`: presence of the key,
not non-emptiness (nor string-ness) of its value, so an entry with an
empty `description` string still becomes a record.
-/

/-- Parse function for the entry-filtering vector: one arguments text
whose `todos` array holds the three entries of the test vector in the
specification. -/
def exLoadsC1 : String → Option Json := fun s =>
  if s = "args1" then
    some (Json.obj [("todos", Json.arr
      [Json.obj [("description", Json.str "ship report")],
       Json.obj [("assigned_to", Json.str "Sam")],
       Json.obj [("description", Json.str ""), ("assigned_to", Json.str "Lee")]])])
  else none

/-- Response fixture carrying one well-formed `extract_todos` call with
the three-entry vector. -/
def exRespC1 : Json :=
  Json.obj [("content", Json.str ""),
    ("tool_calls", Json.arr
      [Json.obj [("id", Json.str "1"),
        ("function", Json.obj [("name", Json.str "extract_todos"),
          ("arguments", Json.str "args1")])]])]

/-- C1 counterexample: on the specification vector
`[("description": "ship report"), ("assigned_to": "Sam"),
("description": "", "assigned_to": "Lee")]` the decoder emits TWO records
— the third entry, whose `description` is the empty string, is not
skipped, contradicting the claim that an entry with an empty description
produces no record. -/
theorem C1_empty_description_not_skipped :
    parse_tool_calls exLoadsC1 exRespC1 =
      [⟨Json.str "ship report", Json.null⟩,
       ⟨Json.str "", Json.str "Lee"⟩] := rfl

/-- C1 (amended): a todo entry yields a record if and only if it is an
object containing the key `description` — whatever the value of that key,
the empty string included; an entry that is not an object or lacks the
key yields no record. -/
theorem C1_emit_iff_description_key (todo : Json) :
    (emitEntry todo).isSome = true ↔
      ∃ kvs, todo = Json.obj kvs ∧
        (List.lookup "description" kvs).isSome = true := by
  constructor
  · intro hs
    cases todo with
    | obj kvs =>
        refine ⟨kvs, rfl, ?_⟩
        have he : emitEntry (Json.obj kvs) =
            (match List.lookup "description" kvs with
              | some d =>
                  some (⟨d, (List.lookup "assigned_to" kvs).getD Json.null⟩ :
                    TodoRecord)
              | none => none) := rfl
        rw [he] at hs
        cases h : List.lookup "description" kvs with
        | none => rw [h] at hs; exact absurd hs (by simp)
        | some d => rfl
    | null => exact absurd hs (by simp [emitEntry])
    | bool b => exact absurd hs (by simp [emitEntry])
    | num n => exact absurd hs (by simp [emitEntry])
    | str s => exact absurd hs (by simp [emitEntry])
    | arr xs => exact absurd hs (by simp [emitEntry])
  · rintro ⟨kvs, rfl, hsome⟩
    have he : emitEntry (Json.obj kvs) =
        (match List.lookup "description" kvs with
          | some d =>
              some (⟨d, (List.lookup "assigned_to" kvs).getD Json.null⟩ :
                TodoRecord)
          | none => none) := rfl
    rw [he]
    cases h : List.lookup "description" kvs with
    | none => rw [h] at hsome; exact absurd hsome (by simp)
    | some d => rfl

/-- Witness for C1: the entry with an empty `description` string
satisfies the right-hand side, hence is emitted. -/
theorem C1_emit_iff_description_key_witness :
    (emitEntry (Json.obj [("description", Json.str "")])).isSome = true :=
  (C1_emit_iff_description_key (Json.obj [("description", Json.str "")])).mpr
    ⟨[("description", Json.str "")], rfl, rfl⟩

/-- C7: for an emitted record, a present non-null `assigned_to` value of
the source entry is carried through unchanged, and a null or absent
`assigned_to` yields the absent marker (Python `None`, embedded as
`Json.null`: the output dict of `todo_extractor.py:140` stores
`todo.get("assigned_to")`, which is `None` in both cases). -/
theorem C7_assigned_to_mapping (kvs : List (String × Json)) (r : TodoRecord)
    (h : emitEntry (Json.obj kvs) = some r) :
    (∀ v, List.lookup "assigned_to" kvs = some v → v ≠ Json.null →
      r.assigned_to = v) ∧
    ((List.lookup "assigned_to" kvs = some Json.null ∨
        List.lookup "assigned_to" kvs = none) →
      r.assigned_to = Json.null) := by
  have he : emitEntry (Json.obj kvs) =
      (match List.lookup "description" kvs with
        | some d =>
            some (⟨d, (List.lookup "assigned_to" kvs).getD Json.null⟩ :
              TodoRecord)
        | none => none) := rfl
  rw [he] at h
  cases hd : List.lookup "description" kvs with
  | none => rw [hd] at h; exact Option.noConfusion h
  | some d =>
      rw [hd] at h
      have hr : (⟨d, (List.lookup "assigned_to" kvs).getD Json.null⟩ :
          TodoRecord) = r := Option.some.inj h
      subst hr
      constructor
      · intro v hv _
        rw [hv]
        rfl
      · rintro (h1 | h1) <;> (rw [h1]; rfl)

/-- Witness for C7 at the two specification vectors: `assigned_to: "Ana"`
is carried through, and `assigned_to: null` maps to the absent marker. -/
theorem C7_assigned_to_mapping_witness :
    ((⟨Json.str "review PR", Json.str "Ana"⟩ : TodoRecord).assigned_to =
      Json.str "Ana") ∧
    ((⟨Json.str "review PR", Json.null⟩ : TodoRecord).assigned_to =
      Json.null) :=
  ⟨(C7_assigned_to_mapping
      [("description", Json.str "review PR"), ("assigned_to", Json.str "Ana")]
      ⟨Json.str "review PR", Json.str "Ana"⟩ rfl).1
      (Json.str "Ana") rfl (fun hc => Json.noConfusion hc),
   (C7_assigned_to_mapping
      [("description", Json.str "review PR"), ("assigned_to", Json.null)]
      ⟨Json.str "review PR", Json.null⟩ rfl).2 (Or.inl rfl)⟩

/-!
Claim C2.  A call with an unknown function name or with arguments text
that fails JSON parsing is skipped (`continue` at `todo_extractor.py:149`)
and the records of the other calls survive.  But only `json.JSONDecodeError` is
caught there: arguments that parse to a non-object raise
`AttributeError` at `arguments.get("todos", [])`, which the OUTER handler
(line 152) turns into `return []`, discarding the records already decoded
from well-formed calls.
-/

/-- Parse function for the C2 counterexample: `good` parses to a
well-formed arguments object with one todo, `badshape` parses to a JSON
array — valid JSON that does not match the declared object shape. -/
def exLoadsC2 : String → Option Json := fun s =>
  if s = "good" then
    some (Json.obj [("todos", Json.arr
      [Json.obj [("description", Json.str "ship report")]])])
  else if s = "badshape" then some (Json.arr [Json.num 1, Json.num 2])
  else none

/-- Well-formed `extract_todos` call holding one valid todo. -/
def exGoodCallC2 : Json :=
  Json.obj [("function", Json.obj [("name", Json.str "extract_todos"),
    ("arguments", Json.str "good")])]

/-- Call whose arguments are valid JSON but not an object. -/
def exBadCallC2 : Json :=
  Json.obj [("function", Json.obj [("name", Json.str "extract_todos"),
    ("arguments", Json.str "badshape")])]

/-- C2 counterexample: with one well-formed call and one call whose
arguments do not match the declared shape (a JSON array), the decoder
returns `[]` — the record of the well-formed call, which alone decodes to
one todo, is discarded rather than preserved. -/
theorem C2_shape_mismatch_discards_records :
    parse_tool_calls exLoadsC2
        (Json.obj [("tool_calls", Json.arr [exGoodCallC2, exBadCallC2])]) =
      [] ∧
    parse_tool_calls exLoadsC2
        (Json.obj [("tool_calls", Json.arr [exGoodCallC2])]) =
      [⟨Json.str "ship report", Json.null⟩] :=
  ⟨rfl, rfl⟩

/-- C2 (amended): a call whose function name is not `extract_todos`, or
whose arguments string fails JSON parsing, is skipped without error and
without affecting the records decoded from the remaining calls; arguments
that are valid JSON of the wrong shape instead abort the whole decode. -/
theorem C2_skipped_call_preserves_records (loads : String → Option Json)
    (tc : Json) (fkvs : List (String × Json)) (n : Json)
    (calls1 calls2 : List Json)
    (hfn : tc.dictGet "function" (Json.obj []) = .ok (Json.obj fkvs))
    (hname : List.lookup "name" fkvs = some n)
    (hskip : isExtractTodosName n = false ∨
      ∃ s, List.lookup "arguments" fkvs = some (Json.str s) ∧ loads s = none) :
    processToolCalls loads (calls1 ++ tc :: calls2) =
      processToolCalls loads (calls1 ++ calls2) := by
  have hcall : processToolCall loads tc = .ok [] := by
    have e1 : processToolCall loads tc =
        Except.bind (tc.dictGet "function" (Json.obj []))
          (fun function =>
            Except.bind (function.dictGet "name" Json.null)
              (fun function_name =>
                Except.bind (function.dictGet "arguments" (Json.str "\x7b\x7d"))
                  (fun arguments_str =>
                    if isExtractTodosName function_name then
                      parseArguments loads arguments_str
                    else Except.ok []))) := rfl
    have e2 : (Json.obj fkvs).dictGet "name" Json.null =
        Except.ok ((List.lookup "name" fkvs).getD Json.null) := rfl
    have e3 : (Json.obj fkvs).dictGet "arguments" (Json.str "\x7b\x7d") =
        Except.ok ((List.lookup "arguments" fkvs).getD (Json.str "\x7b\x7d")) :=
      rfl
    rw [e1, hfn, exceptOkBind, e2, hname, Option.getD_some, exceptOkBind, e3,
      exceptOkBind]
    rcases hskip with hn | ⟨s, hargs, hload⟩
    · simp [hn]
    · rw [hargs, Option.getD_some]
      have e4 : parseArguments loads (Json.str s) =
          (match loads s with
            | none => Except.ok []
            | some arguments =>
                Except.bind (arguments.dictGet "todos" (Json.arr []))
                  (fun todos_list => iterTodosList todos_list)) := rfl
      by_cases hn : isExtractTodosName n = true
      · rw [if_pos hn, e4, hload]
      · rw [if_neg hn]
  induction calls1 with
  | nil =>
      have e5 : processToolCalls loads (tc :: calls2) =
          Except.bind (processToolCall loads tc)
            (fun r => Except.bind (processToolCalls loads calls2)
              (fun rs => Except.ok (r ++ rs))) := rfl
      show processToolCalls loads (tc :: calls2) = processToolCalls loads calls2
      rw [e5, hcall, exceptOkBind]
      cases h2 : processToolCalls loads calls2 with
      | ok l => rw [exceptOkBind, List.nil_append]
      | error e => rw [exceptErrorBind]
  | cons c cs ih =>
      have e6 : processToolCalls loads (c :: (cs ++ tc :: calls2)) =
          Except.bind (processToolCall loads c)
            (fun r => Except.bind (processToolCalls loads (cs ++ tc :: calls2))
              (fun rs => Except.ok (r ++ rs))) := rfl
      have e7 : processToolCalls loads (c :: (cs ++ calls2)) =
          Except.bind (processToolCall loads c)
            (fun r => Except.bind (processToolCalls loads (cs ++ calls2))
              (fun rs => Except.ok (r ++ rs))) := rfl
      show processToolCalls loads (c :: (cs ++ tc :: calls2)) =
        processToolCalls loads (c :: (cs ++ calls2))
      rw [e6, e7, ih]

/-- Parse function for the C2 witness: one well-formed arguments text; the
malformed text of the test vector parses to nothing. -/
def exLoadsC2w : String → Option Json := fun s =>
  if s = "okargs" then
    some (Json.obj [("todos", Json.arr
      [Json.obj [("description", Json.str "ship report")]])])
  else none

/-- Well-formed call fixture for the C2 witness. -/
def exOkCallC2w : Json :=
  Json.obj [("function", Json.obj [("name", Json.str "extract_todos"),
    ("arguments", Json.str "okargs")])]

/-- Call fixture whose arguments text is the malformed `\x7bnot json`. -/
def exBadJsonCallC2w : Json :=
  Json.obj [("function", Json.obj [("name", Json.str "extract_todos"),
    ("arguments", Json.str "\x7bnot json")])]

/-- Witness for C2 (amended): one call with malformed JSON next to one
well-formed call with one todo; the malformed call is skipped and the
result is exactly the one well-formed todo. -/
theorem C2_skipped_call_preserves_records_witness :
    processToolCalls exLoadsC2w [exBadJsonCallC2w, exOkCallC2w] =
      processToolCalls exLoadsC2w [exOkCallC2w] ∧
    processToolCalls exLoadsC2w [exOkCallC2w] =
      .ok [⟨Json.str "ship report", Json.null⟩] :=
  ⟨C2_skipped_call_preserves_records exLoadsC2w exBadJsonCallC2w
      [("name", Json.str "extract_todos"), ("arguments", Json.str "\x7bnot json")]
      (Json.str "extract_todos") [] [exOkCallC2w] rfl rfl
      (Or.inr ⟨"\x7bnot json", rfl, rfl⟩),
   rfl⟩

/-!
Claim C6.  On the error-free path the output is the concatenation of the
per-call record lists in call order, and within one call the records
follow the order of the `todos` array; but a call that raises anything
other than `json.JSONDecodeError` sends the whole decode to the outer
handler, which returns `[]` instead of the concatenation.
-/

/-- List of records a tool call contributes when it does not abort the
batch (an aborting call contributes nothing — the outer handler discards
everything). -/
def okRecords : Except PyErr (List TodoRecord) → List TodoRecord
  | .ok l => l
  | .error _ => []

/-- An entry is safe when, if it is emitted, its description survives the
debug-log slice `[:50]` of `todo_extractor.py:145`. -/
def entrySafe (e : Json) : Bool :=
  match emitEntry e with
  | some r => r.description.sliceable
  | none => true

theorem validateList_eq_filterMap (xs : List Json)
    (h : ∀ e ∈ xs, entrySafe e = true) :
    validateList xs = .ok (xs.filterMap emitEntry) := by
  induction xs with
  | nil => rfl
  | cons x xs ih =>
      have hx : entrySafe x = true := h x (by simp)
      have ih2 := ih (fun e he => h e (by simp [he]))
      have e0 : validateList (x :: xs) =
          (match emitEntry x with
            | none => validateList xs
            | some r =>
                if r.description.sliceable then
                  match validateList xs with
                  | .ok rs => Except.ok (r :: rs)
                  | .error e => Except.error e
                else Except.error PyErr.typeError) := rfl
      cases he : emitEntry x with
      | none =>
          have e1 : validateList (x :: xs) = validateList xs := by
            rw [e0, he]
          rw [e1, ih2, List.filterMap_cons_none he]
      | some r =>
          have hs : r.description.sliceable = true := by
            unfold entrySafe at hx
            rw [he] at hx
            exact hx
          have e1 : validateList (x :: xs) =
              (match validateList xs with
                | .ok rs => Except.ok (r :: rs)
                | .error e => Except.error e) := by
            rw [e0, he]
            show (if r.description.sliceable = true then
                match validateList xs with
                | Except.ok rs => Except.ok (r :: rs)
                | Except.error e => Except.error e
              else Except.error PyErr.typeError) =
              (match validateList xs with
                | Except.ok rs => Except.ok (r :: rs)
                | Except.error e => Except.error e)
            rw [if_pos hs]
          rw [e1, ih2, List.filterMap_cons_some he]

theorem processToolCalls_flatten (loads : String → Option Json)
    (calls : List Json)
    (h : ∀ tc ∈ calls, ∃ l, processToolCall loads tc = .ok l) :
    processToolCalls loads calls =
      .ok ((calls.map (fun tc => okRecords (processToolCall loads tc))).flatten) := by
  induction calls with
  | nil => rfl
  | cons c cs ih =>
      obtain ⟨l, hl⟩ := h c (by simp)
      have ih2 := ih (fun tc htc => h tc (by simp [htc]))
      have e1 : processToolCalls loads (c :: cs) =
          Except.bind (processToolCall loads c)
            (fun r => Except.bind (processToolCalls loads cs)
              (fun rs => Except.ok (r ++ rs))) := rfl
      rw [e1, hl, exceptOkBind, ih2, exceptOkBind, List.map_cons,
        List.flatten_cons, hl]
      rfl

/-- Parse function for C6: `one` parses to a well-formed arguments object
with one todo; `seven` parses to the JSON number 7 — valid JSON on which
`arguments.get` then raises. -/
def exLoadsC6 : String → Option Json := fun s =>
  if s = "one" then
    some (Json.obj [("todos", Json.arr
      [Json.obj [("description", Json.str "review PR")]])])
  else if s = "seven" then some (Json.num 7)
  else none

/-- First C6 call: well-formed, emits one record. -/
def exCallAC6 : Json :=
  Json.obj [("function", Json.obj [("name", Json.str "extract_todos"),
    ("arguments", Json.str "one")])]

/-- Second C6 call: arguments parse to a number, aborting the batch. -/
def exCallBC6 : Json :=
  Json.obj [("function", Json.obj [("name", Json.str "extract_todos"),
    ("arguments", Json.str "seven")])]

/-- Response fixture holding the two C6 calls in order. -/
def exRespC6 : Json :=
  Json.obj [("tool_calls", Json.arr [exCallAC6, exCallBC6])]

/-- C6 counterexample: the first call emits one record, so the
concatenation of per-call emissions is non-empty, yet the decoder output
for the two-call response is `[]` — the output is not the concatenation of
the records emitted per tool call. -/
theorem C6_abort_is_not_concatenation :
    processToolCall exLoadsC6 exCallAC6 =
      .ok [⟨Json.str "review PR", Json.null⟩] ∧
    parse_tool_calls exLoadsC6 exRespC6 = [] :=
  ⟨rfl, rfl⟩

/-- C6 (amended): whenever every tool call processes without an uncaught
error, the decoder output is the concatenation of the per-call record
lists in call order; and a call whose arguments hold a `todos` array whose
emitted descriptions are sliceable yields exactly the entries of that
array, filtered and in array order.  (When some call raises anything but a
JSON decode error, the output is instead the empty list.) -/
theorem C6_concatenation_in_order :
    (∀ (loads : String → Option Json) (calls : List Json),
      (∀ tc ∈ calls, ∃ l, processToolCall loads tc = .ok l) →
      parse_tool_calls loads (Json.obj [("tool_calls", Json.arr calls)]) =
        (calls.map (fun tc => okRecords (processToolCall loads tc))).flatten) ∧
    (∀ (loads : String → Option Json) (tc : Json)
        (fkvs args : List (String × Json)) (s : String) (xs : List Json),
      tc.dictGet "function" (Json.obj []) = .ok (Json.obj fkvs) →
      List.lookup "name" fkvs = some (Json.str "extract_todos") →
      List.lookup "arguments" fkvs = some (Json.str s) →
      loads s = some (Json.obj args) →
      List.lookup "todos" args = some (Json.arr xs) →
      (∀ e ∈ xs, entrySafe e = true) →
      processToolCall loads tc = .ok (xs.filterMap emitEntry)) := by
  constructor
  · intro loads calls h
    cases calls with
    | nil => rfl
    | cons c cs =>
        have hp := processToolCalls_flatten loads (c :: cs) h
        have e1 : parse_tool_calls loads
            (Json.obj [("tool_calls", Json.arr (c :: cs))]) =
            (match processToolCalls loads (c :: cs) with
              | Except.ok todos => todos
              | Except.error _ => ([] : List TodoRecord)) := rfl
        rw [e1, hp]
  · intro loads tc fkvs args s xs hfn hname hargs hload htodos hsafe
    have e1 : processToolCall loads tc =
        Except.bind (tc.dictGet "function" (Json.obj []))
          (fun function =>
            Except.bind (function.dictGet "name" Json.null)
              (fun function_name =>
                Except.bind (function.dictGet "arguments" (Json.str "\x7b\x7d"))
                  (fun arguments_str =>
                    if isExtractTodosName function_name then
                      parseArguments loads arguments_str
                    else Except.ok []))) := rfl
    have e2 : (Json.obj fkvs).dictGet "name" Json.null =
        Except.ok ((List.lookup "name" fkvs).getD Json.null) := rfl
    have e3 : (Json.obj fkvs).dictGet "arguments" (Json.str "\x7b\x7d") =
        Except.ok ((List.lookup "arguments" fkvs).getD (Json.str "\x7b\x7d")) :=
      rfl
    rw [e1, hfn, exceptOkBind, e2, hname, Option.getD_some, exceptOkBind,
      e3, hargs, Option.getD_some, exceptOkBind,
      if_pos (show isExtractTodosName (Json.str "extract_todos") = true from
        rfl)]
    have e4 : parseArguments loads (Json.str s) =
        (match loads s with
          | none => Except.ok []
          | some arguments =>
              Except.bind (arguments.dictGet "todos" (Json.arr []))
                (fun todos_list => iterTodosList todos_list)) := rfl
    rw [e4, hload]
    show Except.bind ((Json.obj args).dictGet "todos" (Json.arr []))
        (fun todos_list => iterTodosList todos_list) =
      Except.ok (xs.filterMap emitEntry)
    have e5 : (Json.obj args).dictGet "todos" (Json.arr []) =
        Except.ok ((List.lookup "todos" args).getD (Json.arr [])) := rfl
    rw [e5, htodos, Option.getD_some, exceptOkBind]
    show validateList xs = Except.ok (xs.filterMap emitEntry)
    exact validateList_eq_filterMap xs hsafe

/-- Witness for C6 (amended) at a one-call response: the output equals the
record list of the single call, both computed concretely. -/
theorem C6_concatenation_in_order_witness :
    parse_tool_calls exLoadsC6 (Json.obj [("tool_calls", Json.arr [exCallAC6])]) =
      [⟨Json.str "review PR", Json.null⟩] ∧
    processToolCall exLoadsC6 exCallAC6 =
      .ok [⟨Json.str "review PR", Json.null⟩] := by
  constructor
  · exact (C6_concatenation_in_order.1 exLoadsC6 [exCallAC6]
      (by
        intro tc htc
        rw [List.mem_singleton] at htc
        subst htc
        exact ⟨[⟨Json.str "review PR", Json.null⟩], rfl⟩)).trans rfl
  · exact (C6_concatenation_in_order.2 exLoadsC6 exCallAC6
      [("name", Json.str "extract_todos"), ("arguments", Json.str "one")]
      [("todos", Json.arr [Json.obj [("description", Json.str "review PR")]])]
      "one" [Json.obj [("description", Json.str "review PR")]]
      rfl rfl rfl rfl rfl
      (by
        intro e he
        rw [List.mem_singleton] at he
        subst he
        rfl)).trans rfl

/-!
Claim C8.  The prompt renders one line per message in input order, and the
bot-message section plus the cross-reference instruction appear exactly
when a (truthy, that is non-empty — any `PriorOutputContext` carrying its
`text`/timestamp fields is a non-empty dict) last bot message is supplied;
with none supplied both interpolated parts are the empty string.
-/

theorem containsStr_mkPrompt_messages (mt bt si pat : String)
    (h : containsStr mt pat) : containsStr (mkPrompt mt bt si) pat := by
  unfold mkPrompt
  exact containsStr_appendL _ _ _ (containsStr_appendL _ _ _
    (containsStr_appendL _ _ _ (containsStr_appendL _ _ _
      (containsStr_appendL _ _ _ (containsStr_appendR _ _ _ h)))))

theorem containsStr_mkPrompt_bot (mt bt si pat : String)
    (h : containsStr bt pat) : containsStr (mkPrompt mt bt si) pat := by
  unfold mkPrompt
  exact containsStr_appendL _ _ _ (containsStr_appendL _ _ _
    (containsStr_appendL _ _ _ (containsStr_appendR _ _ _ h)))

theorem containsStr_mkPrompt_si (mt bt si pat : String)
    (h : containsStr si pat) : containsStr (mkPrompt mt bt si) pat := by
  unfold mkPrompt
  exact containsStr_appendL _ _ _ (containsStr_appendR _ _ _ h)

theorem containsStr_botHeader :
    containsStr (botMessageText m) "# Last Bot Message from the Channel:" := by
  unfold botMessageText
  exact containsStr_appendL _ _ _ (containsStr_appendL _ _ _
    (containsStr_appendL _ _ _ (containsStr_appendL _ _ _
      ⟨"", "\n", rfl⟩)))

/-- C8: the transcript is the concatenation of one rendered line per
message in input order (`messagesText` is append-compositional and maps a
single message to its rendered line, and the line of every message occurs in
the prompt); with no prior context the prompt is assembled with both
bot-message parts empty (omitted entirely); with a supplied (non-empty)
prior context the prompt is assembled with the bot-message section and
the cross-reference instruction line, and both occur in the prompt. -/
theorem C8_prompt_sections :
    (∀ ms1 ms2 : List Msg,
      messagesText (ms1 ++ ms2) = messagesText ms1 ++ messagesText ms2) ∧
    (∀ m : Msg, messagesText [m] = renderLine m) ∧
    (∀ (messages : List Msg) (lbm : Option Msg) (m : Msg), m ∈ messages →
      containsStr (get_todo_extraction_prompt messages lbm) (renderLine m)) ∧
    (∀ messages : List Msg,
      get_todo_extraction_prompt messages none =
        mkPrompt (messagesText messages) "" "") ∧
    (∀ (messages : List Msg) (m : Msg), m.truthy = true →
      get_todo_extraction_prompt messages (some m) =
        mkPrompt (messagesText messages) (botMessageText m)
          specialInstructionsLine ∧
      containsStr (get_todo_extraction_prompt messages (some m))
        "# Last Bot Message from the Channel:" ∧
      containsStr (get_todo_extraction_prompt messages (some m))
        specialInstructionsLine) := by
  refine ⟨messagesText_append, ?_, ?_, ?_, ?_⟩
  · intro m
    rw [messagesText_cons, show messagesText ([] : List Msg) = "" from rfl,
      String.append_empty]
  · intro messages lbm m hm
    have hmt := containsStr_messagesText messages m hm
    cases lbm with
    | none => exact containsStr_mkPrompt_messages _ _ _ _ hmt
    | some mb =>
        have e0 : get_todo_extraction_prompt messages (some mb) =
            (if mb.truthy then
              mkPrompt (messagesText messages) (botMessageText mb)
                specialInstructionsLine
            else mkPrompt (messagesText messages) "" "") := rfl
        by_cases ht : mb.truthy = true
        · rw [e0, if_pos ht]
          exact containsStr_mkPrompt_messages _ _ _ _ hmt
        · rw [e0, if_neg ht]
          exact containsStr_mkPrompt_messages _ _ _ _ hmt
  · intro messages
    rfl
  · intro messages m ht
    have e0 : get_todo_extraction_prompt messages (some m) =
        (if m.truthy then
          mkPrompt (messagesText messages) (botMessageText m)
            specialInstructionsLine
        else mkPrompt (messagesText messages) "" "") := rfl
    refine ⟨by rw [e0, if_pos ht], ?_, ?_⟩
    · rw [e0, if_pos ht]
      exact containsStr_mkPrompt_bot _ _ _ _ containsStr_botHeader
    · rw [e0, if_pos ht]
      exact containsStr_mkPrompt_si _ _ _ _
        (containsStr_self specialInstructionsLine)

/-- Message fixture for the C8 witness (the round-trip vector of the
specification). -/
def exMsgC8 : Msg :=
  { text := some "ship X", user := some "Alice",
    timestamp_readable := some "t1" }

/-- Prior-context fixture for the C8 witness. -/
def exBotC8 : Msg :=
  { text := some "prev summary", ts := some "t0" }

/-- Witness for C8 at the round-trip vector: the rendered line is
`[t1] Alice: ship X`, it occurs in the prompt, the no-context prompt is
assembled with empty bot parts, and the with-context prompt carries the
section header and the instruction line. -/
theorem C8_prompt_sections_witness :
    messagesText [exMsgC8] = "[t1] Alice: ship X\n" ∧
    containsStr (get_todo_extraction_prompt [exMsgC8] none)
      (renderLine exMsgC8) ∧
    get_todo_extraction_prompt [exMsgC8] none =
      mkPrompt (messagesText [exMsgC8]) "" "" ∧
    get_todo_extraction_prompt [exMsgC8] (some exBotC8) =
      mkPrompt (messagesText [exMsgC8]) (botMessageText exBotC8)
        specialInstructionsLine ∧
    containsStr (get_todo_extraction_prompt [exMsgC8] (some exBotC8))
      "# Last Bot Message from the Channel:" ∧
    containsStr (get_todo_extraction_prompt [exMsgC8] (some exBotC8))
      specialInstructionsLine :=
  ⟨(C8_prompt_sections.2.1 exMsgC8).trans rfl,
   C8_prompt_sections.2.2.1 [exMsgC8] none exMsgC8 (by simp),
   C8_prompt_sections.2.2.2.1 [exMsgC8],
   (C8_prompt_sections.2.2.2.2 [exMsgC8] exBotC8 rfl).1,
   (C8_prompt_sections.2.2.2.2 [exMsgC8] exBotC8 rfl).2.1,
   (C8_prompt_sections.2.2.2.2 [exMsgC8] exBotC8 rfl).2.2⟩

/-- C9: the factory raises `ValueError` for every provider identifier that
lower-cases to neither `openai` nor `groq`, independently of library
availability, environment and credentials — before any constructor runs;
for `openai` and `groq` (library available, non-empty key supplied) it
returns the corresponding client value. -/
theorem C9_factory_dispatch :
    (∀ (oa ga : Bool) (eo eg : Option String) (provider : String)
        (key model : Option String),
      pyLower provider ≠ "openai" → pyLower provider ≠ "groq" →
      create_llm_client oa ga eo eg provider key model =
        .error .valueError) ∧
    (∀ (ga : Bool) (eo eg : Option String) (s : String)
        (model : Option String),
      s ≠ "" →
      create_llm_client true ga eo eg "openai" (some s) model =
        .ok (.openaiClient s (model.getD "gpt-4o-mini"))) ∧
    (∀ (oa : Bool) (eo eg : Option String) (s : String)
        (model : Option String),
      s ≠ "" →
      create_llm_client oa true eo eg "groq" (some s) model =
        .ok (.groqClient s (model.getD "llama-3.1-70b-versatile"))) := by
  refine ⟨?_, ?_, ?_⟩
  · intro oa ga eo eg provider key model h1 h2
    simp [create_llm_client, h1, h2]
  · intro ga eo eg s model h
    have hs : s.isEmpty = false := by
      cases he : s.isEmpty
      · rfl
      · exact absurd ((String.isEmpty_iff s).mp he) h
    have e1 : pyLower "openai" = "openai" := rfl
    simp [create_llm_client, e1, OpenAIClient.init, truthyStr, hs]
  · intro oa eo eg s model h
    have hs : s.isEmpty = false := by
      cases he : s.isEmpty
      · rfl
      · exact absurd ((String.isEmpty_iff s).mp he) h
    have e1 : pyLower "groq" = "groq" := rfl
    simp [create_llm_client, e1, GroqClient.init, truthyStr, hs]

/-- Witness for C9: an unknown identifier fails with `ValueError`; known
identifiers with a key produce the matching client with its default
model. -/
theorem C9_factory_dispatch_witness :
    create_llm_client true true none none "anthropic" (some "k") none =
      .error .valueError ∧
    create_llm_client true true none none "openai" (some "sk-key") none =
      .ok (.openaiClient "sk-key" "gpt-4o-mini") ∧
    create_llm_client true true none none "groq" (some "gq-key") none =
      .ok (.groqClient "gq-key" "llama-3.1-70b-versatile") :=
  ⟨C9_factory_dispatch.1 true true none none "anthropic" (some "k") none
      (by decide) (by decide),
   C9_factory_dispatch.2.1 true none none "sk-key" none (by decide),
   C9_factory_dispatch.2.2 true none none "gq-key" none (by decide)⟩

/-- C10: the prompt builder is total on messages with missing keys — no
`user_name` and no `user` renders the author as `Unknown`, no `text`
renders an empty body, no `timestamp_readable` falls back to the raw `ts`
value (the empty string when that too is missing), and the rendered line
assembles these three parts. -/
theorem C10_missing_fields_defaults (m : Msg) :
    (m.user_name = none → m.user = none → msgAuthor m = "Unknown") ∧
    (m.text = none → msgText m = "") ∧
    (m.timestamp_readable = none → msgTimestamp m = m.ts.getD "") ∧
    renderLine m =
      "[" ++ msgTimestamp m ++ "] " ++ msgAuthor m ++ ": " ++ msgText m ++
        "\n" := by
  refine ⟨?_, ?_, ?_, rfl⟩
  · intro h1 h2
    simp [msgAuthor, truthyStr, h1, h2]
  · intro h
    simp [msgText, h]
  · intro h
    simp [msgTimestamp, h]

/-- Message fixture with every key absent. -/
def exMsgC10 : Msg := {}

/-- Witness for C10 at the all-keys-absent message: author `Unknown`,
empty body, empty timestamp, and the assembled line `[] Unknown: `. -/
theorem C10_missing_fields_defaults_witness :
    msgAuthor exMsgC10 = "Unknown" ∧ msgText exMsgC10 = "" ∧
    msgTimestamp exMsgC10 = "" ∧ renderLine exMsgC10 = "[] Unknown: \n" := by
  refine ⟨(C10_missing_fields_defaults exMsgC10).1 rfl rfl,
    (C10_missing_fields_defaults exMsgC10).2.1 rfl,
    ((C10_missing_fields_defaults exMsgC10).2.2.1 rfl).trans rfl, ?_⟩
  rw [(C10_missing_fields_defaults exMsgC10).2.2.2,
    (C10_missing_fields_defaults exMsgC10).1 rfl rfl,
    (C10_missing_fields_defaults exMsgC10).2.1 rfl,
    (C10_missing_fields_defaults exMsgC10).2.2.1 rfl]
  rfl
